import Mathlib

/-!
Shallow embedding of the MTG game-session core from `mtg_server.py`:
decklist parsing and the Deck/Hand/Sideboard zone operations
(`upload_deck`, `draw_card`, `play_card`, `mulligan`, `sideboard_swap`,
`reset_game`), followed by theorems checking the specified properties.

Python strings are modelled as Lean `String` (operated on through their
character lists so that everything reduces by `decide`), Python lists as
Lean `List`, and the in-place state mutation as explicit state passing on
a `GameState` record.  `random.shuffle` is modelled by a caller-supplied
`shuffle : List Card → List Card` parameter, constrained in theorems to
return a permutation of its input.
-/

/-- One card instance: the dict `{"name": ..., "id": ...}` built in
`parse_deck_list`. -/
structure Card where
  name : String
  id : String
deriving DecidableEq

instance : Inhabited Card := ⟨⟨"", ""⟩⟩

/-- The mutable session state: the module-level
`state = {"deck": [], "sideboard": [], "hand": []}`. -/
structure GameState where
  deck : List Card
  hand : List Card
  sideboard : List Card
deriving DecidableEq

/-! ### Python string helpers

These model the concrete Python string operations used by the source
(`str.strip`, `str.split`, `str.lower`, `str.replace`, `int(...)`) on the
ASCII inputs the server handles, as structurally recursive functions on
character lists so they evaluate inside `decide`. -/

/-- `str.strip()`: drop whitespace from both ends. -/
def pyStrip (s : List Char) : List Char :=
  (((s.dropWhile Char.isWhitespace).reverse).dropWhile Char.isWhitespace).reverse

/-- `str.split(sep)` for a single-character separator (used as
`deck_text.split('\n')`). -/
def splitOnChar (sep : Char) : List Char → List (List Char)
  | [] => [[]]
  | a :: rest =>
    let r := splitOnChar sep rest
    if a = sep then [] :: r
    else
      match r with
      | [] => [[a]]
      | x :: xs => (a :: x) :: xs

/-- `str.split(' ', 1)` when it yields two parts: the text before the first
space and everything after it; `none` when the string has no space (the
source then skips the line since `len(parts) != 2`). -/
def splitFirstSpace (s : List Char) : Option (List Char × List Char) :=
  match s.findIdx? (· = ' ') with
  | none => none
  | some i => some (s.take i, s.drop (i + 1))

/-- `str.lower()` on the ASCII range (`Char.toLower` lowercases A–Z). -/
def pyLower (s : List Char) : List Char :=
  s.map Char.toLower

/-- `str.lower()` packaged on `String`s, used for the case-insensitive
name comparisons `card["name"].lower() == card_name.lower()`. -/
def lowerStr (s : String) : String :=
  ⟨pyLower s.data⟩

/-- The value of a nonempty all-digit string, or `none`
(the digits part of `int(...)`). -/
def digitsVal (ds : List Char) : Option Nat :=
  if ds.isEmpty then none
  else if ds.all Char.isDigit then
    some (ds.foldl (fun acc c => 10 * acc + (c.toNat - 48)) 0)
  else none

/-- `int(str)` on optionally signed decimal strings with surrounding
whitespace: the forms reaching `int(parts[0])` in `parse_deck_list`.
`none` models the `ValueError` that makes the source skip the line. -/
def pyInt? (s : List Char) : Option Int :=
  match pyStrip s with
  | '-' :: ds => (digitsVal ds).map (fun n => -(n : Int))
  | '+' :: ds => (digitsVal ds).map (fun n => (n : Int))
  | ds => (digitsVal ds).map (fun n => (n : Int))

/-- `card_name.lower().replace(' ', '_')`: the name part of a generated
card id. -/
def normName (s : String) : String :=
  ⟨s.data.map (fun c => if c.toLower = ' ' then '_' else c.toLower)⟩

/-! ### `parse_deck_list` -/

/-- The inner `for i in range(count)` loop of `parse_deck_list`: create
`k` more copies of the card (the copy counter `i` having already reached
`i`), each with id
`f"{name.lower().replace(' ','_')}_{len(main_deck)+len(sideboard)+i}"`
computed from the zone lengths at creation time, appending to the main
deck or the sideboard according to the current section. -/
def addCopies (card_name : String) (toMain : Bool) :
    Nat → Nat → List Card → List Card → List Card × List Card
  | 0, _, main, side => (main, side)
  | k + 1, i, main, side =>
    let card : Card :=
      ⟨card_name, normName card_name ++ "_" ++ toString (main.length + side.length + i)⟩
    if toMain then addCopies card_name toMain k (i + 1) (main ++ [card]) side
    else addCopies card_name toMain k (i + 1) main (side ++ [card])

/-- The per-line loop of `parse_deck_list`: strip the line, skip blanks,
switch section on `"deck"` / `"sideboard"` headers (case-insensitive),
skip lines before any header, split `<count> <name>` at the first space,
skip lines whose first token is not an integer, and otherwise create
`count` card copies (zero when `count` is negative, as `range(count)` is
then empty). -/
def parseLines : List (List Char) → Option Bool → List Card → List Card →
    List Card × List Card
  | [], _, main, side => (main, side)
  | l :: rest, sec, main, side =>
    let line := pyStrip l
    if line.isEmpty then parseLines rest sec main side
    else if pyLower line = "deck".data then parseLines rest (some true) main side
    else if pyLower line = "sideboard".data then parseLines rest (some false) main side
    else
      match sec with
      | none => parseLines rest sec main side
      | some toMain =>
        match splitFirstSpace line with
        | none => parseLines rest sec main side
        | some (p0, p1) =>
          match pyInt? p0 with
          | none => parseLines rest sec main side
          | some count =>
            let r := addCopies (String.mk p1) toMain count.toNat 0 main side
            parseLines rest sec r.1 r.2

/-- The `{"main_deck": ..., "sideboard": ...}` dict returned by
`parse_deck_list`. -/
structure ParseResult where
  main_deck : List Card
  sideboard : List Card
deriving DecidableEq

/-- `parse_deck_list(deck_text)`: strip the whole text, split it on
newlines, and fold the per-line loop starting with no current section and
two empty zones. -/
def parse_deck_list (deck_text : String) : ParseResult :=
  let lines := splitOnChar '\n' (pyStrip deck_text.data)
  let r := parseLines lines none [] []
  ⟨r.1, r.2⟩

/-! ### Zone operations -/

/-- `upload_deck(deck_list)`: parse, replace Deck with the (shuffled)
main deck, replace Sideboard with the parsed sideboard, clear Hand, and
report the resulting zone sizes.  Always succeeds. -/
def upload_deck (shuffle : List Card → List Card) (deck_list : String) :
    String × GameState :=
  let p := parse_deck_list deck_list
  let st : GameState := { deck := shuffle p.main_deck, hand := [], sideboard := p.sideboard }
  ("Deck uploaded with " ++ toString st.deck.length ++ " main deck cards and " ++
      toString st.sideboard.length ++ " sideboard cards.", st)

/-- The draw loop shared by `draw_card` and `mulligan`: `k` times, pop the
front card of the deck and append it to the hand and its name to the drawn
list.  (The guards in the source keep `k` within the deck length, so the
empty-deck case is unreachable there.) -/
def drawLoop : Nat → List Card → List Card → List String →
    List Card × List Card × List String
  | 0, deck, hand, drawn => (deck, hand, drawn)
  | _ + 1, [], hand, drawn => ([], hand, drawn)
  | k + 1, c :: rest, hand, drawn => drawLoop k rest (hand ++ [c]) (drawn ++ [c.name])

/-- `draw_card(count)`: refuse when the deck holds fewer than `count`
cards, otherwise move the first `count` cards from Deck to Hand
(for `count <= 0`, `range(count)` is empty and nothing moves). -/
def draw_card (count : Int) (s : GameState) : String × GameState :=
  if (s.deck.length : Int) < count then
    ("Not enough cards in deck. Only " ++ toString s.deck.length ++ " remaining.", s)
  else
    let r := drawLoop count.toNat s.deck s.hand []
    ("Drew " ++ toString count ++ " card(s): " ++ String.intercalate ", " r.2.2,
      { s with deck := r.1, hand := r.2.1 })

/-- Whether a card matches a requested name case-insensitively:
`card["name"].lower() == card_name.lower()`. -/
def nameMatches (card_name : String) (c : Card) : Bool :=
  lowerStr c.name = lowerStr card_name

/-- The loop of `play_card`: scan the hand for the first card whose name
matches case-insensitively; return it together with the hand with that
card popped, or `none` when no card matches. -/
def playLoop (card_name : String) : List Card → Option (Card × List Card)
  | [] => none
  | c :: rest =>
    if nameMatches card_name c then some (c, rest)
    else
      match playLoop card_name rest with
      | some (p, rest2) => some (p, c :: rest2)
      | none => none

/-- `play_card(card_name)`: pop the first case-insensitive match from Hand
and confirm, or report that the card was not found. -/
def play_card (card_name : String) (s : GameState) : String × GameState :=
  match playLoop card_name s.hand with
  | some (c, hand2) => ("Played " ++ c.name ++ ".", { s with hand := hand2 })
  | none => ("Card \x27" ++ card_name ++ "\x27 not found in hand.", s)

/-- `mulligan(new_hand_size)`: refuse on an empty hand; otherwise return
the hand to the deck, shuffle, and draw
`min(draw_size, len(deck))` cards back (empty `range` when the minimum is
negative), where `draw_size` defaults to the entry hand size. -/
def mulligan (shuffle : List Card → List Card) (new_hand_size : Option Int)
    (s : GameState) : String × GameState :=
  if s.hand.isEmpty then ("Cannot mulligan with an empty hand.", s)
  else
    let draw_size : Int := new_hand_size.getD (s.hand.length : Int)
    let deck1 := shuffle (s.deck ++ s.hand)
    let n : Nat := (min draw_size (deck1.length : Int)).toNat
    let r := drawLoop n deck1 [] []
    ("Mulliganed and drew " ++ toString r.2.2.length ++ " new cards.",
      { s with deck := r.1, hand := r.2.1 })

/-- Python `list.pop(i)` for an in-range index: the element at `i` and the
list without it.  (Out of range is unreachable at the call sites: the
indices come from successful searches.) -/
def pyPop : Nat → List Card → Card × List Card
  | _, [] => (default, [])
  | 0, c :: rest => (c, rest)
  | i + 1, c :: rest =>
    let r := pyPop i rest
    (r.1, c :: r.2)

/-- Python `list.insert(i, a)` (clamping past-the-end indices to append,
as `list.insert` does). -/
def pyInsert (i : Nat) (a : Card) : List Card → List Card
  | [] => [a]
  | b :: rest =>
    match i with
    | 0 => a :: b :: rest
    | j + 1 => b :: pyInsert j a rest

/-- The sideboard search of `sideboard_swap`: index of the first card in
the list whose name matches case-insensitively. -/
def findNameIdx (target : String) : List Card → Option Nat
  | [] => none
  | c :: rest =>
    if nameMatches target c then some 0
    else (findNameIdx target rest).map (· + 1)

/-- The list comprehension of `sideboard_swap`: all indices (counting from
`i`) of cards in the list whose name matches case-insensitively. -/
def matchIdxs (target : String) : List Card → Nat → List Nat
  | [], _ => []
  | c :: rest, i =>
    if nameMatches target c then i :: matchIdxs target rest (i + 1)
    else matchIdxs target rest (i + 1)

/-- `sideboard_swap(remove_card, add_card)`: find `add_card` in the
sideboard and the first `remove_card` in the concatenation `deck + hand`;
pop the found card from that temporary concatenation (the source line
`main_card = all_deck.pop(main_card_idx)` mutates only the temporary list
`all_deck`, so `state["deck"]` and `state["hand"]` keep the card); pop the
matched card from the sideboard and append the main card to it; then
insert the sideboard card into Deck at the concatenation index when that
index is below `len(state["deck"])` (still the unreduced deck), and into
Hand at `index - len(deck)` otherwise. -/
def sideboard_swap (remove_card add_card : String) (s : GameState) :
    String × GameState :=
  match findNameIdx add_card s.sideboard with
  | none => ("Card \x27" ++ add_card ++ "\x27 not found in sideboard.", s)
  | some sideboard_card_idx =>
    let all_deck := s.deck ++ s.hand
    match (matchIdxs remove_card all_deck 0).head? with
    | none => ("Card \x27" ++ remove_card ++ "\x27 not found in deck or hand.", s)
    | some main_card_idx =>
      let main_card := (pyPop main_card_idx all_deck).1
      let sbPop := pyPop sideboard_card_idx s.sideboard
      let sideboard_card := sbPop.1
      let side2 := sbPop.2 ++ [main_card]
      let msg := "Swapped out " ++ main_card.name ++ " for " ++ sideboard_card.name ++
        " from sideboard."
      if main_card_idx < s.deck.length then
        (msg, { s with deck := pyInsert main_card_idx sideboard_card s.deck,
                       sideboard := side2 })
      else
        (msg, { s with hand := pyInsert (main_card_idx - s.deck.length) sideboard_card s.hand,
                       sideboard := side2 })

/-- `reset_game()`: move the hand back into the deck, clear the hand,
shuffle the deck, and leave the sideboard untouched. -/
def reset_game (shuffle : List Card → List Card) (s : GameState) :
    String × GameState :=
  ("Game reset. Deck shuffled.",
    { s with deck := shuffle (s.deck ++ s.hand), hand := [] })

/-! ### Theorems

The fixed decklist `"Deck\n1 Island\nSideboard\n1 Negate"` parses to a
one-card main deck (`Island`, id `island_0`) and a one-card sideboard
(`Negate`, id `negate_1`); the identity function is used as the shuffle
(a permutation). -/

/-- **C1.** The claimed conservation invariant fails: starting from a
successful upload of a two-card decklist (sum of zone sizes 2, equal to
the parsed total), one successful `sideboard_swap` leaves the three zones
holding 3 cards in total, because the swapped-out card is popped only from
the temporary concatenation `deck + hand` and stays in the deck while a
copy of it is also appended to the sideboard. -/
theorem c1_sideboard_swap_breaks_conservation :
    (parse_deck_list "Deck\n1 Island\nSideboard\n1 Negate").main_deck.length +
        (parse_deck_list "Deck\n1 Island\nSideboard\n1 Negate").sideboard.length = 2 ∧
    (((upload_deck id "Deck\n1 Island\nSideboard\n1 Negate").2).deck.length +
        ((upload_deck id "Deck\n1 Island\nSideboard\n1 Negate").2).hand.length +
        ((upload_deck id "Deck\n1 Island\nSideboard\n1 Negate").2).sideboard.length = 2) ∧
    ((sideboard_swap "Island" "Negate"
          (upload_deck id "Deck\n1 Island\nSideboard\n1 Negate").2).2.deck.length +
        (sideboard_swap "Island" "Negate"
          (upload_deck id "Deck\n1 Island\nSideboard\n1 Negate").2).2.hand.length +
        (sideboard_swap "Island" "Negate"
          (upload_deck id "Deck\n1 Island\nSideboard\n1 Negate").2).2.sideboard.length = 3) := by
  decide

/-- **C2.** The claimed swap semantics fail: in a state where
`sideboard_swap "Island" "Negate"` succeeds (the success message is
returned), the first — and only — card matching the remove name, `Island`
with id `island_0`, is *not* removed from the deck: it is still in the
post-swap deck, and a copy of it is also appended to the sideboard. -/
theorem c2_sideboard_swap_does_not_remove :
    (sideboard_swap "Island" "Negate"
        (upload_deck id "Deck\n1 Island\nSideboard\n1 Negate").2).1 =
      "Swapped out Island for Negate from sideboard." ∧
    (⟨"Island", "island_0"⟩ : Card) ∈
      (upload_deck id "Deck\n1 Island\nSideboard\n1 Negate").2.deck ∧
    (⟨"Island", "island_0"⟩ : Card) ∈
      (sideboard_swap "Island" "Negate"
        (upload_deck id "Deck\n1 Island\nSideboard\n1 Negate").2).2.deck ∧
    (⟨"Island", "island_0"⟩ : Card) ∈
      (sideboard_swap "Island" "Negate"
        (upload_deck id "Deck\n1 Island\nSideboard\n1 Negate").2).2.sideboard := by
  decide

/-- **C3.** The claimed identity-uniqueness invariant fails: after a
successful upload followed by one successful `sideboard_swap`, the id
`island_0` appears simultaneously in the Deck zone and in the Sideboard
zone. -/
theorem c3_sideboard_swap_breaks_uniqueness :
    "island_0" ∈
      ((sideboard_swap "Island" "Negate"
          (upload_deck id "Deck\n1 Island\nSideboard\n1 Negate").2).2.deck.map Card.id) ∧
    "island_0" ∈
      ((sideboard_swap "Island" "Negate"
          (upload_deck id "Deck\n1 Island\nSideboard\n1 Negate").2).2.sideboard.map Card.id) := by
  decide

/-- **C4.** The claimed id distinctness fails: on the input
`"Deck\n2 a\n2 a"` a single `parse_deck_list` call produces the main-deck
ids `a_0, a_2, a_2, a_4` — the id `a_2` occurs twice, because the id index
`len(main_deck) + len(sideboard) + i` advances by 2 per created copy (the
append grows the list while `i` also increments), so the second line
re-generates an index the first line already used. -/
theorem c4_parse_deck_list_duplicate_ids :
    ((parse_deck_list "Deck\n2 a\n2 a").main_deck.map Card.id) =
      ["a_0", "a_2", "a_2", "a_4"] ∧
    ¬ ((parse_deck_list "Deck\n2 a\n2 a").main_deck.map Card.id).Nodup := by
  decide

/-- **C9.** The claimed swap round-trip fails: after uploading the
two-card decklist, `sideboard_swap "Island" "Negate"` followed by
`sideboard_swap "Negate" "Island"` (both successful) leaves the deck with
the name multiset `[Island, Negate, Island]`, not the original
`[Island]` — each swap duplicates the swapped-out card. -/
theorem c9_sideboard_swap_roundtrip_not_restored :
    (upload_deck id "Deck\n1 Island\nSideboard\n1 Negate").2.deck.map Card.name =
      ["Island"] ∧
    (sideboard_swap "Island" "Negate"
        (upload_deck id "Deck\n1 Island\nSideboard\n1 Negate").2).1 =
      "Swapped out Island for Negate from sideboard." ∧
    (sideboard_swap "Negate" "Island"
        (sideboard_swap "Island" "Negate"
          (upload_deck id "Deck\n1 Island\nSideboard\n1 Negate").2).2).1 =
      "Swapped out Negate for Island from sideboard." ∧
    (sideboard_swap "Negate" "Island"
        (sideboard_swap "Island" "Negate"
          (upload_deck id "Deck\n1 Island\nSideboard\n1 Negate").2).2).2.deck.map Card.name =
      ["Island", "Negate", "Island"] := by
  decide

/-- Within the deck length, the draw loop moves exactly the first `k`
cards of the deck to the end of the hand and records their names in
front-to-back order. -/
theorem drawLoop_eq (k : Nat) (deck hand : List Card) (drawn : List String)
    (h : k ≤ deck.length) :
    drawLoop k deck hand drawn =
      (deck.drop k, hand ++ deck.take k, drawn ++ (deck.take k).map Card.name) := by
  induction k generalizing deck hand drawn with
  | zero => simp [drawLoop]
  | succ k ih =>
    cases deck with
    | nil => simp at h
    | cons c rest =>
      rw [drawLoop, ih rest (hand ++ [c]) (drawn ++ [c.name]) (by simpa using h)]
      simp

/-- **C5.** `draw_card` is atomic: when `count` exceeds the deck size it
reports the insufficient-cards message and returns the state unchanged;
otherwise it removes exactly the first `count.toNat` cards from the front
of the deck, appends them to the end of the hand in the same order,
returns their names in that order, and leaves the sideboard unchanged. -/
theorem c5_draw_card_atomic (count : Int) (s : GameState) :
    ((s.deck.length : Int) < count →
      draw_card count s =
        ("Not enough cards in deck. Only " ++ toString s.deck.length ++ " remaining.", s)) ∧
    (count ≤ (s.deck.length : Int) →
      draw_card count s =
        ("Drew " ++ toString count ++ " card(s): " ++
            String.intercalate ", " ((s.deck.take count.toNat).map Card.name),
          { s with deck := s.deck.drop count.toNat,
                   hand := s.hand ++ s.deck.take count.toNat })) := by
  constructor
  · intro h
    simp [draw_card, h]
  · intro h
    have hk : count.toNat ≤ s.deck.length := Int.toNat_le.mpr h
    simp [draw_card, Int.not_lt.mpr h, drawLoop_eq count.toNat s.deck s.hand [] hk]

/-- Witness for C5 at concrete inputs: an over-draw on an empty deck
reports the failure message unchanged, and a draw of 1 from a one-card
deck moves that card. -/
theorem c5_draw_card_atomic_witness :
    draw_card 5 ⟨[], [], []⟩ =
      ("Not enough cards in deck. Only 0 remaining.", ⟨[], [], []⟩) ∧
    draw_card 1 ⟨[⟨"A", "a_0"⟩], [], []⟩ =
      ("Drew 1 card(s): A", ⟨[], [⟨"A", "a_0"⟩], []⟩) :=
  ⟨((c5_draw_card_atomic 5 ⟨[], [], []⟩).1 (by decide)).trans (by decide),
   ((c5_draw_card_atomic 1 ⟨[⟨"A", "a_0"⟩], [], []⟩).2 (by decide)).trans (by decide)⟩

/-- **C10.** For `count ≤ 0`, `draw_card` does not report insufficient
cards: since the deck length is never below a non-positive `count`, the
guard passes, `range(count)` is empty, and the call returns the
success-style message `"Drew {count} card(s): "` with all three zones
unchanged. -/
theorem c10_draw_card_nonpositive (count : Int) (s : GameState) (h : count ≤ 0) :
    draw_card count s = ("Drew " ++ toString count ++ " card(s): ", s) := by
  have hle : count ≤ (s.deck.length : Int) := le_trans h (by positivity)
  have h0 : count.toNat = 0 := Int.toNat_of_nonpos h
  simp [draw_card, Int.not_lt.mpr hle, h0, drawLoop, String.intercalate]

/-- Witness for C10: drawing `-1` from a one-card deck reports
`"Drew -1 card(s): "` and moves nothing. -/
theorem c10_draw_card_nonpositive_witness :
    draw_card (-1) ⟨[⟨"A", "a_0"⟩], [], []⟩ =
      ("Drew -1 card(s): ", ⟨[⟨"A", "a_0"⟩], [], []⟩) :=
  (c10_draw_card_nonpositive (-1) ⟨[⟨"A", "a_0"⟩], [], []⟩ (by decide)).trans (by decide)

/-- When no card in the list matches, the play loop finds nothing. -/
theorem playLoop_eq_none (card_name : String) (l : List Card)
    (h : ∀ c ∈ l, nameMatches card_name c = false) :
    playLoop card_name l = none := by
  induction l with
  | nil => rfl
  | cons c rest ih =>
    simp only [playLoop, h c (by simp), Bool.false_eq_true, if_false]
    rw [ih (fun c' hc' => h c' (by simp [hc']))]

/-- When the list decomposes at its first matching card, the play loop
returns that card and the list with exactly that occurrence removed. -/
theorem playLoop_eq_first (card_name : String) (l₁ l₂ : List Card) (c : Card)
    (h₁ : ∀ c' ∈ l₁, nameMatches card_name c' = false)
    (hc : nameMatches card_name c = true) :
    playLoop card_name (l₁ ++ c :: l₂) = some (c, l₁ ++ l₂) := by
  induction l₁ with
  | nil => simp [playLoop, hc]
  | cons a rest ih =>
    simp only [List.cons_append, playLoop, h₁ a (by simp), Bool.false_eq_true, if_false,
      List.append_eq]
    rw [ih (fun c' hc' => h₁ c' (by simp [hc']))]

/-- **C7.** `play_card` removes exactly the first case-insensitive match
from the hand and confirms it (deck and sideboard untouched), and fails
with the card-not-found report, leaving the whole state unchanged, exactly
when no card in the hand matches. -/
theorem c7_play_card_spec (card_name : String) (s : GameState) :
    ((∀ c ∈ s.hand, nameMatches card_name c = false) →
      play_card card_name s =
        ("Card \x27" ++ card_name ++ "\x27 not found in hand.", s)) ∧
    (∀ (l₁ l₂ : List Card) (c : Card),
      s.hand = l₁ ++ c :: l₂ →
      (∀ c' ∈ l₁, nameMatches card_name c' = false) →
      nameMatches card_name c = true →
      play_card card_name s =
        ("Played " ++ c.name ++ ".", { s with hand := l₁ ++ l₂ })) := by
  constructor
  · intro h
    simp [play_card, playLoop_eq_none card_name s.hand h]
  · intro l₁ l₂ c hh h₁ hc
    simp [play_card, hh, playLoop_eq_first card_name l₁ l₂ c h₁ hc]

/-- Witness for C7: playing `"a"` from the hand `[A]` removes the card
(case-insensitive match) and playing `"z"` reports the not-found message
with the state unchanged. -/
theorem c7_play_card_spec_witness :
    play_card "a" ⟨[], [⟨"A", "a_0"⟩], []⟩ = ("Played A.", ⟨[], [], []⟩) ∧
    play_card "z" ⟨[], [⟨"A", "a_0"⟩], []⟩ =
      ("Card \x27z\x27 not found in hand.", ⟨[], [⟨"A", "a_0"⟩], []⟩) :=
  ⟨((c7_play_card_spec "a" ⟨[], [⟨"A", "a_0"⟩], []⟩).2 [] [] ⟨"A", "a_0"⟩ rfl
      (by simp) (by decide)).trans (by decide),
   ((c7_play_card_spec "z" ⟨[], [⟨"A", "a_0"⟩], []⟩).1 (by decide)).trans (by decide)⟩

/-- **C8.** `upload_deck` always succeeds: for every decklist text and
every permutation-producing shuffle, the resulting deck is a permutation
of the parsed main deck, the sideboard equals the parsed sideboard
unshuffled, the hand is empty, and the success message reports the zone
sizes. -/
theorem c8_upload_deck_spec (shuffle : List Card → List Card)
    (hsh : ∀ l, (shuffle l).Perm l) (deck_list : String) :
    (upload_deck shuffle deck_list).2.deck.Perm (parse_deck_list deck_list).main_deck ∧
    (upload_deck shuffle deck_list).2.sideboard = (parse_deck_list deck_list).sideboard ∧
    (upload_deck shuffle deck_list).2.hand = [] ∧
    (upload_deck shuffle deck_list).1 =
      "Deck uploaded with " ++
        toString (shuffle (parse_deck_list deck_list).main_deck).length ++
        " main deck cards and " ++
        toString (parse_deck_list deck_list).sideboard.length ++ " sideboard cards." :=
  ⟨hsh _, rfl, rfl, rfl⟩

/-- Witness for C8 with the identity shuffle on the two-card decklist. -/
theorem c8_upload_deck_spec_witness :
    (upload_deck id "Deck\n1 Island\nSideboard\n1 Negate").2.deck.Perm
      (parse_deck_list "Deck\n1 Island\nSideboard\n1 Negate").main_deck ∧
    (upload_deck id "Deck\n1 Island\nSideboard\n1 Negate").2 =
      ⟨[⟨"Island", "island_0"⟩], [], [⟨"Negate", "negate_1"⟩]⟩ :=
  ⟨(c8_upload_deck_spec id (fun l => List.Perm.refl l)
      "Deck\n1 Island\nSideboard\n1 Negate").1, by decide⟩

/-- **C6.** `mulligan` on an empty hand reports the empty-hand message and
changes nothing; on a nonempty hand it moves the hand into the deck,
shuffles, and draws exactly
`min(newHandSize, len(Deck))` cards back into the hand (the hand size at
entry when the size is omitted, `len(Deck)` counted after the hand was
returned), so the combined Deck-plus-Hand multiset is unchanged and the
sideboard is untouched. -/
theorem c6_mulligan_spec (shuffle : List Card → List Card)
    (hsh : ∀ l, (shuffle l).Perm l) (new_hand_size : Option Int) (s : GameState) :
    (s.hand = [] →
      mulligan shuffle new_hand_size s = ("Cannot mulligan with an empty hand.", s)) ∧
    (s.hand ≠ [] →
      (mulligan shuffle new_hand_size s).2.hand.length =
        (min (new_hand_size.getD (s.hand.length : Int))
          ((s.deck.length + s.hand.length : Nat) : Int)).toNat ∧
      ((mulligan shuffle new_hand_size s).2.deck ++
        (mulligan shuffle new_hand_size s).2.hand).Perm (s.deck ++ s.hand) ∧
      (mulligan shuffle new_hand_size s).2.sideboard = s.sideboard) := by
  constructor
  · intro h
    simp [mulligan, h]
  · intro hne
    have hP : (shuffle (s.deck ++ s.hand)).Perm (s.deck ++ s.hand) := hsh _
    have hlen : (shuffle (s.deck ++ s.hand)).length = s.deck.length + s.hand.length := by
      simpa using hP.length_eq
    have hE : s.hand.isEmpty = false := by
      cases hh : s.hand with
      | nil => exact absurd hh hne
      | cons a t => rfl
    have hn : (min (new_hand_size.getD (s.hand.length : Int))
        (((shuffle (s.deck ++ s.hand)).length : Int))).toNat ≤
        (shuffle (s.deck ++ s.hand)).length := by
      omega
    have hrw := drawLoop_eq _ (shuffle (s.deck ++ s.hand)) [] [] hn
    simp only [mulligan, hE, Bool.false_eq_true, if_false, hrw, List.nil_append]
    refine ⟨?_, ?_, trivial⟩
    · rw [List.length_take]
      omega
    · have h3 : ((shuffle (s.deck ++ s.hand)).drop
          (min (new_hand_size.getD (s.hand.length : Int))
            (((shuffle (s.deck ++ s.hand)).length : Int))).toNat ++
          (shuffle (s.deck ++ s.hand)).take
          (min (new_hand_size.getD (s.hand.length : Int))
            (((shuffle (s.deck ++ s.hand)).length : Int))).toNat).Perm
          (shuffle (s.deck ++ s.hand)) := by
        conv_rhs => rw [← List.take_append_drop
          (min (new_hand_size.getD (s.hand.length : Int))
            (((shuffle (s.deck ++ s.hand)).length : Int))).toNat
          (shuffle (s.deck ++ s.hand))]
        exact List.perm_append_comm
      exact h3.trans hP

/-- Witness for C6: mulligan with requested size 1 from deck `[A]`, hand
`[B]` and the identity shuffle draws exactly one card, preserves the
combined Deck-plus-Hand cards, and leaves the sideboard empty. -/
theorem c6_mulligan_spec_witness :
    (mulligan id (some 1) ⟨[⟨"A", "a_0"⟩], [⟨"B", "b_1"⟩], []⟩).2.hand.length = 1 ∧
    ((mulligan id (some 1) ⟨[⟨"A", "a_0"⟩], [⟨"B", "b_1"⟩], []⟩).2.deck ++
      (mulligan id (some 1) ⟨[⟨"A", "a_0"⟩], [⟨"B", "b_1"⟩], []⟩).2.hand).Perm
      ([⟨"A", "a_0"⟩] ++ [⟨"B", "b_1"⟩]) ∧
    (mulligan id (some 1) ⟨[⟨"A", "a_0"⟩], [⟨"B", "b_1"⟩], []⟩).2.sideboard = [] := by
  have h := (c6_mulligan_spec id (fun l => List.Perm.refl l) (some 1)
    ⟨[⟨"A", "a_0"⟩], [⟨"B", "b_1"⟩], []⟩).2 (by decide)
  exact ⟨h.1.trans (by decide), h.2.1, h.2.2⟩
